import Mathlib

/-!
Shallow embedding of the capture / timed-pulse control core of the
Toupcam camera driver (`src/3rdparty/indi-toupcam/indi_toupcam.cpp`).

Conventions of the embedding:
* C++ `int` arithmetic is modelled by `Int` with truncated division and
  remainder (`Int.tdiv`, `Int.tmod`), matching C++ `/` and `%`.  All the
  quantities handled by the claims stay far below `2^31`, so two's
  complement wrap-around is not modelled.
* an SDK call returning `HRESULT` is modelled by a `Bool` oracle argument
  (`true` = the call returned `rc >= 0`); the bytes delivered by
  `Toupcam_PullImageV2` are an oracle function `Nat → Nat` (byte offset to
  byte value).
* side effects on the hardware and on the consumer (property layer /
  streamer) are recorded as an ordered trace of actions.
* `PrimaryCCD` fields (resolution, sub-frame, binning, bits per pixel,
  frame-buffer size, frame-buffer contents) are fields of `CamState`.
-/

/-- The four entries of `VideoFormatS`, in switch order
`TC_VIDEO_MONO_8, TC_VIDEO_MONO_16, TC_VIDEO_RGB, TC_VIDEO_RAW`. -/
inductive VideoFormat where
  | mono8
  | mono16
  | rgb
  | raw
deriving DecidableEq, Repr

/-- SDK option identifiers (`TOUPCAM_OPTION_*`).  Their concrete numeric
values live in the vendor header; only their identity matters here. -/
inductive TOption where
  | optRaw        -- TOUPCAM_OPTION_RAW
  | optBitDepth   -- TOUPCAM_OPTION_BITDEPTH
  | optPixelFormat -- TOUPCAM_OPTION_PIXEL_FORMAT
  | optRgb        -- TOUPCAM_OPTION_RGB
  | optBinning    -- TOUPCAM_OPTION_BINNING
  | optTrigger    -- TOUPCAM_OPTION_TRIGGER
deriving DecidableEq, Repr

/-- `TOUPCAM_PIXELFORMAT_RAW12` (vendor header constant; identity only). -/
def TOUPCAM_PIXELFORMAT_RAW12 : Int := 12

/-- INDI polling interval `POLLMS` (milliseconds). -/
def POLLMS : Int := 1000

/-- Hardware / consumer actions emitted by the driver, in call order. -/
inductive HwAction where
  | stopCapture                                -- Toupcam_Stop
  | startPull                                  -- Toupcam_StartPullModeWithCallback
  | putOption (opt : TOption) (value : Int)    -- Toupcam_put_Option
  | putRoi (x y w h : Int)                     -- Toupcam_put_Roi
  | putExpoTime (uSecs : Int)                  -- Toupcam_put_ExpoTime
  | trigger (n : Int)                          -- Toupcam_Trigger
  | st4PlusGuide (dir : Int) (ms : Int)        -- Toupcam_ST4PlusGuide
  | streamerSetSize (w h : Int)                -- Streamer->setSize
  | addTimer (ms : Int)                        -- IEAddTimer
  | mallocTemp (size : Int)                    -- malloc of the RGB staging buffer
  | freeTemp                                   -- free of the RGB staging buffer
  | pullImage                                  -- Toupcam_PullImageV2
  | newFrame                                   -- Streamer->newFrame
  | exposureComplete                           -- ExposureComplete(&PrimaryCCD)
  | exposureFailed                             -- PrimaryCCD.setExposureFailed
  | guideComplete (axis : Int)                 -- GuideComplete
  | rmTimer                                    -- IERmTimer
  | usleepUs (uSecs : Int)                     -- usleep
deriving DecidableEq, Repr

/-- Driver-side mutable state: the capture-session fields of the `TOUPCAM`
object together with the `PrimaryCCD` record it owns. -/
structure CamState where
  inExposure : Bool                 -- InExposure
  sendImage : Bool                  -- m_SendImage
  streaming : Bool                  -- Streamer->isStreaming()
  currentVideoFormat : VideoFormat  -- currentVideoFormat
  mBitsPerPixel : Int               -- m_BitsPerPixel
  mChannels : Int                   -- m_Channels
  rawBitsPerPixel : Int             -- m_RawBitsPerPixel
  xRes : Int                        -- PrimaryCCD.getXRes()
  yRes : Int                        -- PrimaryCCD.getYRes()
  subX : Int                        -- PrimaryCCD.getSubX()
  subY : Int                        -- PrimaryCCD.getSubY()
  subW : Int                        -- PrimaryCCD.getSubW()
  subH : Int                        -- PrimaryCCD.getSubH()
  binX : Int                        -- PrimaryCCD.getBinX()
  binY : Int                        -- PrimaryCCD.getBinY()
  bpp : Int                         -- PrimaryCCD.getBPP()
  nAxis : Int                       -- PrimaryCCD's NAxis
  frameBufferSize : Int             -- PrimaryCCD.getFrameBufferSize()
  frameBuffer : Nat → Nat           -- bytes of PrimaryCCD.getFrameBuffer()
  exposureRequest : Int             -- ExposureRequest, in microseconds
  exposureEnd : Int                 -- ExposureEnd, as microseconds since epoch

/-- `TOUPCAM::allocateFrameBuffer` (indi_toupcam.cpp:801-840): sizes the
frame buffer and records BPP/NAxis from `currentVideoFormat`; the trailing
`Streamer->setSize(XRes, YRes)` is returned as an action. -/
def allocateFrameBuffer (s : CamState) : CamState × List HwAction :=
  let s' :=
    match s.currentVideoFormat with
    | VideoFormat.mono8 =>
        { s with frameBufferSize := s.xRes * s.yRes, bpp := 8, nAxis := 2 }
    | VideoFormat.mono16 =>
        { s with frameBufferSize := s.xRes * s.yRes * 2, bpp := 8, nAxis := 2 }
    | VideoFormat.rgb =>
        { s with frameBufferSize := s.xRes * s.yRes * 3, bpp := 8, nAxis := 3 }
    | VideoFormat.raw =>
        { s with frameBufferSize := (s.xRes * s.yRes * s.mBitsPerPixel).tdiv 8,
                 bpp := s.mBitsPerPixel, nAxis := 2 }
  (s', [HwAction.streamerSetSize s.xRes s.yRes])

/-- `TOUPCAM::UpdateCCDFrame` (indi_toupcam.cpp:1538-1578).  `roiOk` is the
oracle for `Toupcam_put_Roi`.  Returns the C++ return value, the state
after the call and the trace of hardware calls issued. -/
def UpdateCCDFrame (roiOk : Bool) (x y w h : Int) (s : CamState) :
    Bool × CamState × List HwAction :=
  -- Make sure all are even
  let x := x - x.tmod 2
  let y := y - y.tmod 2
  let w := w - w.tmod 2
  let h := h - h.tmod 2
  if w > s.xRes then (false, s, [])
  else if h > s.yRes then (false, s, [])
  else if !roiOk then (false, s, [HwAction.putRoi x y w h])
  else
    let s' := { s with subX := x, subY := y, subW := w, subH := h,
                       frameBufferSize := (w * h * s.bpp).tdiv 8 * s.mChannels }
    (true, s', [HwAction.putRoi x y w h,
                HwAction.streamerSetSize (w.tdiv s.binX) (h.tdiv s.binY)])

/-- `TOUPCAM::UpdateCCDBin` (indi_toupcam.cpp:1580-1598).  `binOk` is the
oracle for `Toupcam_put_Option(TOUPCAM_OPTION_BINNING, binx)`, `roiOk` the
oracle for the nested `Toupcam_put_Roi`. -/
def UpdateCCDBin (binOk roiOk : Bool) (binx biny : Int) (s : CamState) :
    Bool × CamState × List HwAction :=
  if !binOk then (false, s, [HwAction.putOption TOption.optBinning binx])
  else
    let s' := { s with binX := binx, binY := binx }
    let r := UpdateCCDFrame roiOk s'.subX s'.subY s'.subW s'.subH s'
    (r.1, r.2.1, HwAction.putOption TOption.optBinning binx :: r.2.2)

/-- Guard inputs of the `VideoFormatSP` branch of `TOUPCAM::ISNewSwitch`
(indi_toupcam.cpp:1052-1108): streamer business, `m_MaxBitDepth == 8`,
`m_RAWFormatSupport`, and `m_Instance->model->flag & TOUPCAM_FLAG_MONO`. -/
structure FormatGuards where
  streamerBusy : Bool
  maxBitDepth8 : Bool
  rawSupport : Bool
  monoSensor : Bool
deriving DecidableEq, Repr

/-- Oracles for the four `Toupcam_put_Option` calls of the video-format
switch, in program order. -/
structure FormatHw where
  rawOk : Bool
  bitDepthOk : Bool
  pixelFormatOk : Bool
  rgbModeOk : Bool
deriving DecidableEq, Repr

/-- The `VideoFormatSP` branch of `TOUPCAM::ISNewSwitch`
(indi_toupcam.cpp:1052-1239), for a request whose target switch resolves
to `target`.  Returns `true` exactly on the fully applied path
(`VideoFormatSP.s = IPS_OK`), the state after the call, and the ordered
trace of hardware calls. -/
def videoFormatSwitch (g : FormatGuards) (hw : FormatHw) (target : VideoFormat)
    (s : CamState) : Bool × CamState × List HwAction :=
  if g.streamerBusy then (false, s, [])
  else if g.maxBitDepth8 && target = VideoFormat.mono16 then (false, s, [])
  else if target = VideoFormat.raw && !g.rawSupport then (false, s, [])
  else if target = VideoFormat.rgb && g.monoSensor then (false, s, [])
  else
    -- We need to stop camera first
    let pre : List HwAction := [HwAction.stopCapture]
    -- Set updated video format RGB vs. RAW
    let pre := pre ++ [HwAction.putOption TOption.optRaw 1]
    if !hw.rawOk then (false, s, pre ++ [HwAction.startPull])
    else
      let pre := pre ++ [HwAction.putOption TOption.optBitDepth 1]
      if !hw.bitDepthOk then (false, s, pre ++ [HwAction.startPull])
      else
        let pre := pre ++
          [HwAction.putOption TOption.optPixelFormat TOUPCAM_PIXELFORMAT_RAW12]
        if !hw.pixelFormatOk then (false, s, pre ++ [HwAction.startPull])
        else
          -- If RGB, we need to set specific sub-type
          let rgbStep : Option (List HwAction) :=
            if target ≠ VideoFormat.raw then
              let mode : Int :=
                if target = VideoFormat.mono8 then 3
                else if target = VideoFormat.mono16 then 4
                else 0
              if !hw.rgbModeOk then none
              else some [HwAction.putOption TOption.optRgb mode]
            else some []
          match rgbStep with
          | none =>
              (false, s,
               pre ++ [HwAction.putOption TOption.optRgb
                         (if target = VideoFormat.mono8 then 3
                          else if target = VideoFormat.mono16 then 4 else 0),
                       HwAction.startPull])
          | some rgbActs =>
              let s :=
                match target with
                | VideoFormat.mono8 =>
                    { s with currentVideoFormat := target,
                             mChannels := 1, mBitsPerPixel := 8 }
                | VideoFormat.mono16 =>
                    { s with currentVideoFormat := target,
                             mChannels := 1, mBitsPerPixel := 16 }
                | VideoFormat.rgb =>
                    { s with currentVideoFormat := target,
                             mChannels := 3, mBitsPerPixel := 8 }
                | VideoFormat.raw =>
                    { s with currentVideoFormat := target,
                             mChannels := 1,
                             mBitsPerPixel := s.rawBitsPerPixel }
              let alloc := allocateFrameBuffer s
              (true, alloc.1,
               pre ++ rgbActs ++ alloc.2 ++ [HwAction.startPull])

/-- Oracles for the three SDK calls made by `TOUPCAM::StartExposure`, in
program order. -/
structure ExposureHw where
  expoTimeOk : Bool      -- Toupcam_put_ExpoTime
  triggerOptionOk : Bool -- Toupcam_put_Option(TOUPCAM_OPTION_TRIGGER, 1)
  triggerOk : Bool       -- Toupcam_Trigger(m_CameraHandle, 1)
deriving DecidableEq, Repr

/-- `TOUPCAM::StartExposure` (indi_toupcam.cpp:1448-1509), parameterised
over the requested duration already converted to microseconds (`uSecs`,
the C++ `uint32_t uSecs = duration * 1000000.0f`; the float conversion
itself is outside the model) and the current wall clock `now`
(microseconds since epoch, for `gettimeofday`/`timeradd`). -/
def StartExposure (hw : ExposureHw) (now uSecs : Int) (s : CamState) :
    Bool × CamState × List HwAction :=
  -- PrimaryCCD.setExposureDuration / ExposureRequest are set up front
  let s := { s with exposureRequest := uSecs }
  if !hw.expoTimeOk then (false, s, [HwAction.putExpoTime uSecs])
  else if !hw.triggerOptionOk then
    (false, s, [HwAction.putExpoTime uSecs,
                HwAction.putOption TOption.optTrigger 1])
  else if !hw.triggerOk then
    (false, s, [HwAction.putExpoTime uSecs,
                HwAction.putOption TOption.optTrigger 1, HwAction.trigger 1])
  else
    let s := { s with exposureEnd := now + uSecs, inExposure := true }
    let timeMS := uSecs.tdiv 1000 - 50
    let timeMS := if timeMS < 0 then timeMS + 50 else timeMS
    let timerActs := if timeMS < POLLMS then [HwAction.addTimer timeMS] else []
    (true, s, [HwAction.putExpoTime uSecs,
               HwAction.putOption TOption.optTrigger 1,
               HwAction.trigger 1] ++ timerActs)

/-- `TOUPCAM::AbortExposure` (indi_toupcam.cpp:1511-1536).  `triggerOk` is
the oracle for `Toupcam_Trigger(m_CameraHandle, 0)`. -/
def AbortExposure (triggerOk : Bool) (s : CamState) :
    Bool × CamState × List HwAction :=
  let s := { s with inExposure := false }
  if !triggerOk then (false, s, [HwAction.trigger 0])
  else (true, s, [HwAction.trigger 0])

/-- `TOUPCAM::sendImageCallBack` (indi_toupcam.cpp:2046-2050), the body of
the one-shot wake-up timer scheduled by `StartExposure`/`TimerHit`. -/
def sendImageCallBack (s : CamState) : CamState :=
  { s with inExposure := false, sendImage := true }

/-- Result of `Toupcam_PullImageV2`: success flag and, on success, the
bytes the SDK deposits in the destination buffer (offset → byte). -/
structure PullResult where
  ok : Bool
  bytes : Nat → Nat

/-- The RGB→planar copy loop of `TOUPCAM::eventPullCallBack`
(indi_toupcam.cpp:2117-2128): iteration `k` writes `buffer[3k]`,
`buffer[3k+1]`, `buffer[3k+2]` through `subR`/`subG`/`subB`, which start at
`image`, `image + planeSize`, `image + 2*planeSize` and advance by one byte
per iteration.  The C++ loop `for (i = 0; i <= width*height*3 - 3; i += 3)`
runs `planeSize = width*height` iterations (none when the product is
non-positive, hence the `Int.toNat`). -/
def deinterleave (buffer : Nat → Nat) (planeSize : Nat) (image : Nat → Nat) :
    Nat → Nat :=
  (List.range planeSize).foldl
    (fun img k => fun j =>
      if j = k then buffer (3 * k)
      else if j = planeSize + k then buffer (3 * k + 1)
      else if j = 2 * planeSize + k then buffer (3 * k + 2)
      else img j)
    image

/-- The `TOUPCAM_EVENT_IMAGE` arm of `TOUPCAM::eventPullCallBack`
(indi_toupcam.cpp:2067-2138).  On a failed pull the destination buffer's
contents are left unspecified by the SDK; the model keeps the frame buffer
unchanged in that case (no claim inspects it). -/
def handleImageEvent (pull : PullResult) (s : CamState) :
    CamState × List HwAction :=
  if s.streaming then
    if pull.ok then
      ({ s with frameBuffer := pull.bytes },
       [HwAction.pullImage, HwAction.newFrame])
    else (s, [HwAction.pullImage])
  else
    -- buffer = PrimaryCCD.getFrameBuffer(), replaced by a malloc'd staging
    -- buffer when (m_SendImage && currentVideoFormat == TC_VIDEO_RGB)
    let usesTemp := s.sendImage && decide (s.currentVideoFormat = VideoFormat.rgb)
    let mallocActs :=
      if usesTemp then [HwAction.mallocTemp (s.xRes * s.yRes * 3)] else []
    if !pull.ok then
      (s, mallocActs ++ [HwAction.pullImage, HwAction.exposureFailed] ++
          (if usesTemp then [HwAction.freeTemp] else []))
    else if s.sendImage then
      if s.currentVideoFormat = VideoFormat.rgb then
        let width := s.subW.tdiv s.binX * s.bpp.tdiv 8
        let height := s.subH.tdiv s.binY * s.bpp.tdiv 8
        let planeSize := (width * height).toNat
        ({ s with frameBuffer := deinterleave pull.bytes planeSize s.frameBuffer,
                  sendImage := false },
         mallocActs ++ [HwAction.pullImage, HwAction.freeTemp,
                        HwAction.exposureComplete])
      else
        ({ s with frameBuffer := pull.bytes, sendImage := false },
         [HwAction.pullImage, HwAction.exposureComplete])
    else
      ({ s with frameBuffer := pull.bytes }, [HwAction.pullImage])

/-- INDI equatorial axes, as passed to `GuideComplete`. -/
def AXIS_RA : Int := 0

/-- INDI equatorial axis DEC. -/
def AXIS_DE : Int := 1

/-- `IPState` return values of the guide-pulse entry points. -/
inductive IPState where
  | idle
  | ok
  | busy
  | alert
deriving DecidableEq, Repr

/-- Guide-pulse state of the `TOUPCAM` object: per-axis one-shot timer id
(`-1` ↦ `none`), direction and deadline. -/
structure GuideState where
  nsTimerID : Option Nat  -- NStimerID
  nsDir : Int             -- NSDir
  nsPulseEnd : Int        -- NSPulseEnd, microseconds since epoch
  weTimerID : Option Nat  -- WEtimerID
  weDir : Int             -- WEDir
  wePulseEnd : Int        -- WEPulseEnd
deriving DecidableEq, Repr

/-- `TOUPCAM::stopTimerNS` (indi_toupcam.cpp:1680-1688). -/
def stopTimerNS (s : GuideState) : GuideState × List HwAction :=
  match s.nsTimerID with
  | some _ => ({ s with nsTimerID := none },
               [HwAction.guideComplete AXIS_DE, HwAction.rmTimer])
  | none => (s, [])

/-- `TOUPCAM::TimerNS` (indi_toupcam.cpp:1673-1677), the NS deadline-timer
callback. -/
def TimerNS (s : GuideState) : GuideState × List HwAction :=
  ({ s with nsTimerID := none }, [HwAction.guideComplete AXIS_DE])

/-- `TOUPCAM::guidePulseNS` (indi_toupcam.cpp:1690-1721).  `hwOk` is the
oracle for `Toupcam_ST4PlusGuide`; `newTimerID` the id `IEAddTimer` would
return; `now` the wall clock in microseconds. -/
def guidePulseNS (hwOk : Bool) (newTimerID : Nat) (now : Int) (ms : Nat)
    (dir : Int) (s : GuideState) : IPState × GuideState × List HwAction :=
  let stop := stopTimerNS s
  let s := { stop.1 with nsDir := dir }
  let uSecs : Int := (ms : Int) * 1000
  if !hwOk then
    (IPState.alert, s, stop.2 ++ [HwAction.st4PlusGuide dir (ms : Int)])
  else if ms < 50 then
    (IPState.ok, s,
     stop.2 ++ [HwAction.st4PlusGuide dir (ms : Int), HwAction.usleepUs uSecs])
  else
    let s := { s with nsPulseEnd := now + uSecs, nsTimerID := some newTimerID }
    (IPState.busy, s,
     stop.2 ++ [HwAction.st4PlusGuide dir (ms : Int), HwAction.addTimer (ms : Int)])

/-- `TOUPCAM::stopTimerWE` (indi_toupcam.cpp:1746-1754). -/
def stopTimerWE (s : GuideState) : GuideState × List HwAction :=
  match s.weTimerID with
  | some _ => ({ s with weTimerID := none },
               [HwAction.guideComplete AXIS_RA, HwAction.rmTimer])
  | none => (s, [])

/-- `TOUPCAM::TimerWE` (indi_toupcam.cpp:1740-1744), the WE deadline-timer
callback. -/
def TimerWE (s : GuideState) : GuideState × List HwAction :=
  ({ s with weTimerID := none }, [HwAction.guideComplete AXIS_RA])

/-- `TOUPCAM::guidePulseWE` (indi_toupcam.cpp:1756-1787). -/
def guidePulseWE (hwOk : Bool) (newTimerID : Nat) (now : Int) (ms : Nat)
    (dir : Int) (s : GuideState) : IPState × GuideState × List HwAction :=
  let stop := stopTimerWE s
  let s := { stop.1 with weDir := dir }
  let uSecs : Int := (ms : Int) * 1000
  if !hwOk then
    (IPState.alert, s, stop.2 ++ [HwAction.st4PlusGuide dir (ms : Int)])
  else if ms < 50 then
    (IPState.ok, s,
     stop.2 ++ [HwAction.st4PlusGuide dir (ms : Int), HwAction.usleepUs uSecs])
  else
    let s := { s with wePulseEnd := now + uSecs, weTimerID := some newTimerID }
    (IPState.busy, s,
     stop.2 ++ [HwAction.st4PlusGuide dir (ms : Int), HwAction.addTimer (ms : Int)])

/-- A reference state used by concrete witnesses/counterexamples: a
1×1-binned full-frame mono-8 configuration on a 106×58 sensor. -/
def baseState : CamState where
  inExposure := false
  sendImage := false
  streaming := false
  currentVideoFormat := VideoFormat.mono8
  mBitsPerPixel := 8
  mChannels := 1
  rawBitsPerPixel := 12
  xRes := 106
  yRes := 58
  subX := 0
  subY := 0
  subW := 106
  subH := 58
  binX := 1
  binY := 1
  bpp := 8
  nAxis := 2
  frameBufferSize := 106 * 58
  frameBuffer := fun _ => 0
  exposureRequest := 0
  exposureEnd := 0

/-- The `Toupcam_put_Option` calls of a hardware trace, in call order. -/
def optionWrites (tr : List HwAction) : List (TOption × Int) :=
  tr.filterMap fun a =>
    match a with
    | HwAction.putOption o v => some (o, v)
    | _ => none

/-- The reference `GuideState`: both axes idle. -/
def baseGuide : GuideState where
  nsTimerID := none
  nsDir := 0
  nsPulseEnd := 0
  weTimerID := none
  weDir := 0
  wePulseEnd := 0

/- ------------------------------------------------------------------ -/
/- Helper lemmas                                                       -/
/- ------------------------------------------------------------------ -/

/-- Pointwise characterisation of a partial run of the de-interleave
loop: after `n ≤ planeSize` iterations the first `n` cells of each plane
hold the de-interleaved bytes and everything else is untouched. -/
theorem deinterleave_aux (buffer : Nat → Nat) (ps : Nat) (img : Nat → Nat) :
    ∀ n, n ≤ ps → ∀ j,
      ((List.range n).foldl
        (fun im k => fun j =>
          if j = k then buffer (3 * k)
          else if j = ps + k then buffer (3 * k + 1)
          else if j = 2 * ps + k then buffer (3 * k + 2)
          else im j) img) j =
      if j < n then buffer (3 * j)
      else if ps ≤ j ∧ j < ps + n then buffer (3 * (j - ps) + 1)
      else if 2 * ps ≤ j ∧ j < 2 * ps + n then buffer (3 * (j - 2 * ps) + 2)
      else img j := by
  intro n
  induction n with
  | zero =>
      intro _ j
      simp only [List.range_zero, List.foldl_nil]
      split_ifs <;> first | rfl | omega
  | succ n ih =>
      intro hn j
      rw [List.range_succ, List.foldl_append, List.foldl_cons, List.foldl_nil]
      show (if j = n then buffer (3 * n)
            else if j = ps + n then buffer (3 * n + 1)
            else if j = 2 * ps + n then buffer (3 * n + 2)
            else ((List.range n).foldl _ img) j) = _
      rw [ih (by omega) j]
      split_ifs <;> first | rfl | omega | (congr 1 <;> omega)

/-- The completed de-interleave: pixel `i`'s three packed bytes land at
offsets `i`, `planeSize + i` and `2·planeSize + i`. -/
theorem deinterleave_eq (buffer : Nat → Nat) (ps : Nat) (img : Nat → Nat)
    (i : Nat) (hi : i < ps) :
    deinterleave buffer ps img i = buffer (3 * i) ∧
    deinterleave buffer ps img (ps + i) = buffer (3 * i + 1) ∧
    deinterleave buffer ps img (2 * ps + i) = buffer (3 * i + 2) := by
  unfold deinterleave
  rw [deinterleave_aux buffer ps img ps le_rfl i,
      deinterleave_aux buffer ps img ps le_rfl (ps + i),
      deinterleave_aux buffer ps img ps le_rfl (2 * ps + i)]
  refine ⟨?_, ?_, ?_⟩ <;> (split_ifs <;> first | rfl | omega | (congr 1 <;> omega))

/-- Shared helper: a non-streaming image event with `m_SendImage == false`
reaches neither `ExposureComplete` nor `Streamer->newFrame`. -/
theorem handleImageEvent_no_publish_of_not_pending (pull : PullResult)
    (s : CamState) (hstr : s.streaming = false) (hsp : s.sendImage = false) :
    HwAction.exposureComplete ∉ (handleImageEvent pull s).2 ∧
    HwAction.newFrame ∉ (handleImageEvent pull s).2 := by
  rcases pull with ⟨ok, bytes⟩
  cases ok <;>
    simp [handleImageEvent, hstr, hsp]

/- ------------------------------------------------------------------ -/
/- C1                                                                  -/
/- ------------------------------------------------------------------ -/

/-- C1, counterexample.  `TOUPCAM::StartExposure` performs no
session-state check: called while an exposure is in flight (state
Exposing, original deadline 999) with the hardware accepting all three
calls, it returns success — not an `InvalidState` failure — and replaces
the exposure deadline. -/
theorem startExposure_while_exposing_succeeds_cx :
    (StartExposure ⟨true, true, true⟩ 1000000 500000
        { baseState with inExposure := true, exposureEnd := 999 }).1 = true ∧
    (StartExposure ⟨true, true, true⟩ 1000000 500000
        { baseState with inExposure := true, exposureEnd := 999 }).2.1.exposureEnd
      = 1500000 := by
  exact ⟨rfl, rfl⟩

/-- C1, amended: `StartExposure` never checks the session state.  From
any state — in particular while already Exposing — it succeeds whenever
the three hardware calls succeed, re-arms `InExposure` and replaces the
deadline with `now + duration`; it fails only on hardware refusal. -/
theorem startExposure_no_state_check (hw : ExposureHw) (now uSecs : Int)
    (s : CamState) (h1 : hw.expoTimeOk = true) (h2 : hw.triggerOptionOk = true)
    (h3 : hw.triggerOk = true) :
    (StartExposure hw now uSecs s).1 = true ∧
    (StartExposure hw now uSecs s).2.1.inExposure = true ∧
    (StartExposure hw now uSecs s).2.1.exposureEnd = now + uSecs := by
  simp only [StartExposure, h1, h2, h3, Bool.not_true, Bool.false_eq_true,
    if_false]
  exact ⟨trivial, trivial, trivial⟩

/-- C1, witness for `startExposure_no_state_check`. -/
theorem startExposure_no_state_check_witness :
    (StartExposure ⟨true, true, true⟩ 7 13 baseState).1 = true ∧
    (StartExposure ⟨true, true, true⟩ 7 13 baseState).2.1.inExposure = true ∧
    (StartExposure ⟨true, true, true⟩ 7 13 baseState).2.1.exposureEnd = 7 + 13 :=
  startExposure_no_state_check ⟨true, true, true⟩ 7 13 baseState rfl rfl rfl

/- ------------------------------------------------------------------ -/
/- C2                                                                  -/
/- ------------------------------------------------------------------ -/

/-- C2, evaluation at the failing input.  Switch the video format to
Mono 16 (all guards pass, all hardware calls succeed: the active
descriptor then has `m_BitsPerPixel = 16`, `m_Channels = 1`), then apply
the successful geometry change `UpdateCCDFrame(0, 0, 8, 8)`.
`allocateFrameBuffer` recorded `PrimaryCCD`'s BPP as 8 for Mono 16 while
sizing the buffer at 2 bytes/pixel, so `UpdateCCDFrame` recomputes the
buffer as `8·8·8/8·1 = 64` bytes — not the
`width × height × bytesPerPixel × channelCount = 8·8·(16/8)·1 = 128`
bytes the invariant requires for the active descriptor. -/
theorem mono16_updateFrame_buffer_underallocated :
    (UpdateCCDFrame true 0 0 8 8
        (videoFormatSwitch ⟨false, false, true, false⟩ ⟨true, true, true, true⟩
          VideoFormat.mono16 baseState).2.1).1 = true ∧
    (UpdateCCDFrame true 0 0 8 8
        (videoFormatSwitch ⟨false, false, true, false⟩ ⟨true, true, true, true⟩
          VideoFormat.mono16 baseState).2.1).2.1.mBitsPerPixel = 16 ∧
    (UpdateCCDFrame true 0 0 8 8
        (videoFormatSwitch ⟨false, false, true, false⟩ ⟨true, true, true, true⟩
          VideoFormat.mono16 baseState).2.1).2.1.mChannels = 1 ∧
    (UpdateCCDFrame true 0 0 8 8
        (videoFormatSwitch ⟨false, false, true, false⟩ ⟨true, true, true, true⟩
          VideoFormat.mono16 baseState).2.1).2.1.frameBufferSize = 64 ∧
    (UpdateCCDFrame true 0 0 8 8
        (videoFormatSwitch ⟨false, false, true, false⟩ ⟨true, true, true, true⟩
          VideoFormat.mono16 baseState).2.1).2.1.frameBufferSize ≠
      8 * 8 * Int.tdiv 16 8 * 1 := by
  refine ⟨rfl, rfl, rfl, rfl, ?_⟩
  decide

/- ------------------------------------------------------------------ -/
/- C3                                                                  -/
/- ------------------------------------------------------------------ -/

/-- C3, counterexample.  A non-streaming ImageReady event with
`m_SendImage == false` is *not* discarded without side effects: the
handler still issues `Toupcam_PullImageV2` into the live frame buffer,
overwriting its bytes (offset 0 changes from 0 to 7 here). -/
theorem imageEvent_not_pending_overwrites_buffer_cx :
    (handleImageEvent ⟨true, fun _ => 7⟩ baseState).1.frameBuffer 0 = 7 ∧
    baseState.frameBuffer 0 = 0 ∧
    HwAction.pullImage ∈ (handleImageEvent ⟨true, fun _ => 7⟩ baseState).2 := by
  refine ⟨rfl, rfl, ?_⟩
  decide

/-- C3, amended: an ImageReady event handled while `m_SendImage` is false
(streaming off) produces no `ExposureComplete`/`newFrame` call and leaves
the session flags unchanged, but it is not side-effect free: the handler
still pulls the image — overwriting the frame buffer on success — and
marks the exposure failed when the pull fails. -/
theorem imageEvent_not_pending_no_publish (pull : PullResult) (s : CamState)
    (hstr : s.streaming = false) (hsp : s.sendImage = false) :
    HwAction.exposureComplete ∉ (handleImageEvent pull s).2 ∧
    HwAction.newFrame ∉ (handleImageEvent pull s).2 ∧
    (handleImageEvent pull s).1.sendImage = false ∧
    (handleImageEvent pull s).1.inExposure = s.inExposure ∧
    HwAction.pullImage ∈ (handleImageEvent pull s).2 ∧
    (pull.ok = true → (handleImageEvent pull s).1.frameBuffer = pull.bytes) ∧
    (pull.ok = false → HwAction.exposureFailed ∈ (handleImageEvent pull s).2) := by
  obtain ⟨h1, h2⟩ := handleImageEvent_no_publish_of_not_pending pull s hstr hsp
  refine ⟨h1, h2, ?_, ?_, ?_, ?_, ?_⟩ <;>
    rcases pull with ⟨ok, bytes⟩ <;>
    cases ok <;>
    simp [handleImageEvent, hstr, hsp]

/-- C3, witness for `imageEvent_not_pending_no_publish`. -/
theorem imageEvent_not_pending_no_publish_witness :
    HwAction.exposureComplete ∉ (handleImageEvent ⟨true, fun _ => 3⟩ baseState).2 ∧
    HwAction.newFrame ∉ (handleImageEvent ⟨true, fun _ => 3⟩ baseState).2 :=
  ⟨(imageEvent_not_pending_no_publish ⟨true, fun _ => 3⟩ baseState rfl rfl).1,
   (imageEvent_not_pending_no_publish ⟨true, fun _ => 3⟩ baseState rfl rfl).2.1⟩

/- ------------------------------------------------------------------ -/
/- C4                                                                  -/
/- ------------------------------------------------------------------ -/

/-- C4, counterexample.  `AbortExposure` does not clear `m_SendImage`:
aborting while send-pending is true (as after the wake-up timer fired)
leaves the flag set, and a late ImageReady event arriving after the abort
is *not* discarded — it publishes a frame via `ExposureComplete`. -/
theorem abortExposure_keeps_sendPending_cx :
    (AbortExposure true
        { baseState with inExposure := true, sendImage := true }).2.1.sendImage
      = true ∧
    HwAction.exposureComplete ∈
      (handleImageEvent ⟨true, fun _ => 0⟩
        (AbortExposure true
          { baseState with inExposure := true, sendImage := true }).2.1).2 := by
  refine ⟨rfl, ?_⟩
  decide

/-- C4, amended: `AbortExposure` always issues `Toupcam_Trigger(0)` and
unconditionally returns the session to Idle (`InExposure = false`), but it
leaves `m_SendImage` unchanged; a late image event is discarded by the
send-pending check only when `m_SendImage` was already false. -/
theorem abortExposure_unconditional_idle (triggerOk : Bool) (pull : PullResult)
    (s : CamState) :
    (AbortExposure triggerOk s).2.1.inExposure = false ∧
    (AbortExposure triggerOk s).2.1.sendImage = s.sendImage ∧
    (AbortExposure triggerOk s).2.2 = [HwAction.trigger 0] ∧
    (s.sendImage = false → s.streaming = false →
      HwAction.exposureComplete ∉
        (handleImageEvent pull (AbortExposure triggerOk s).2.1).2) := by
  have hstate : (AbortExposure triggerOk s).2.1 = { s with inExposure := false } := by
    cases triggerOk <;> rfl
  refine ⟨?_, ?_, ?_, ?_⟩
  · rw [hstate]
  · rw [hstate]
  · cases triggerOk <;> rfl
  · intro hsp hstr
    rw [hstate]
    exact (handleImageEvent_no_publish_of_not_pending pull
      { s with inExposure := false } hstr hsp).1

/-- C4, witness for `abortExposure_unconditional_idle`. -/
theorem abortExposure_unconditional_idle_witness :
    (AbortExposure true baseState).2.1.inExposure = false ∧
    HwAction.exposureComplete ∉
      (handleImageEvent ⟨true, fun _ => 0⟩ (AbortExposure true baseState).2.1).2 :=
  ⟨(abortExposure_unconditional_idle true ⟨true, fun _ => 0⟩ baseState).1,
   (abortExposure_unconditional_idle true ⟨true, fun _ => 0⟩ baseState).2.2.2
     rfl rfl⟩

/- ------------------------------------------------------------------ -/
/- C5                                                                  -/
/- ------------------------------------------------------------------ -/

/-- C5, counterexample.  When the pull fails while send-pending is true
the handler marks the exposure failed and publishes nothing, but it does
*not* clear `m_SendImage`: the flag is still true afterwards. -/
theorem pullFailure_keeps_sendPending_cx :
    (handleImageEvent ⟨false, fun _ => 0⟩
        { baseState with sendImage := true }).1.sendImage = true ∧
    HwAction.exposureFailed ∈
      (handleImageEvent ⟨false, fun _ => 0⟩ { baseState with sendImage := true }).2 ∧
    HwAction.exposureComplete ∉
      (handleImageEvent ⟨false, fun _ => 0⟩ { baseState with sendImage := true }).2 := by
  refine ⟨rfl, ?_, ?_⟩ <;> decide

/-- C5, amended: a failed pull during single-exposure delivery
(send-pending true, streaming off) sets the failed/alert exposure status
and publishes no frame, but leaves the driver state — including the
send-pending flag — unchanged; `m_SendImage` is cleared only on a
successful delivery. -/
theorem pullFailure_alert_no_publish (pull : PullResult) (s : CamState)
    (hstr : s.streaming = false) (hsp : s.sendImage = true)
    (hpf : pull.ok = false) :
    HwAction.exposureFailed ∈ (handleImageEvent pull s).2 ∧
    HwAction.exposureComplete ∉ (handleImageEvent pull s).2 ∧
    HwAction.newFrame ∉ (handleImageEvent pull s).2 ∧
    (handleImageEvent pull s).1 = s := by
  rcases pull with ⟨ok, bytes⟩
  cases ok with
  | false =>
      by_cases hfmt : s.currentVideoFormat = VideoFormat.rgb <;>
        simp [handleImageEvent, hstr, hsp, hfmt]
  | true => exact absurd hpf (by simp)

/-- C5, witness for `pullFailure_alert_no_publish`. -/
theorem pullFailure_alert_no_publish_witness :
    HwAction.exposureFailed ∈
      (handleImageEvent ⟨false, fun _ => 0⟩ { baseState with sendImage := true }).2 ∧
    (handleImageEvent ⟨false, fun _ => 0⟩
        { baseState with sendImage := true }).1 =
      { baseState with sendImage := true } :=
  ⟨(pullFailure_alert_no_publish ⟨false, fun _ => 0⟩
      { baseState with sendImage := true } rfl rfl rfl).1,
   (pullFailure_alert_no_publish ⟨false, fun _ => 0⟩
      { baseState with sendImage := true } rfl rfl rfl).2.2.2⟩

/- ------------------------------------------------------------------ -/
/- C6                                                                  -/
/- ------------------------------------------------------------------ -/

/-- C6, counterexample.  With an ROI active (100×50 sub-frame on the
106×58 sensor, RGB format, send-pending true) the temporary buffer is
malloc'd at the full sensor resolution, `XRes·YRes·3 = 18444` bytes — not
the frame's `width × height × 3 = 100·50·3 = 15000` bytes the claim
states. -/
theorem rgb_roi_temp_full_resolution_cx :
    (handleImageEvent ⟨true, fun _ => 0⟩
        { baseState with currentVideoFormat := VideoFormat.rgb,
                         sendImage := true, subW := 100, subH := 50 }).2.head? =
      some (HwAction.mallocTemp 18444) ∧
    HwAction.mallocTemp (100 * 50 * 3) ∉
      (handleImageEvent ⟨true, fun _ => 0⟩
        { baseState with currentVideoFormat := VideoFormat.rgb,
                         sendImage := true, subW := 100, subH := 50 }).2 ∧
    (18444 : Int) ≠ 100 * 50 * 3 := by
  refine ⟨by decide, by decide, by decide⟩

/-- C6, amended: a single exposure completing in packed-RGB format pulls
into a temporary buffer sized by the full sensor resolution —
`XRes × YRes × 3` bytes, not the frame's `width × height × 3` when an ROI
or binning is active — then de-interleaves: for every pixel index
`i < planeSize` (where `planeSize = subW/binX · subH/binY` at the 8-bit
BPP the driver always records for RGB), the bytes at offsets
`3i, 3i+1, 3i+2` of the temporary buffer are written to frame-buffer
offsets `i`, `planeSize + i`, `2·planeSize + i`, and the temporary buffer
is freed after copying. -/
theorem rgb_deinterleave_planes (pull : PullResult) (s : CamState) (i : Nat)
    (hstr : s.streaming = false) (hsp : s.sendImage = true)
    (hfmt : s.currentVideoFormat = VideoFormat.rgb) (hok : pull.ok = true)
    (hbpp : s.bpp = 8)
    (hi : i < (s.subW.tdiv s.binX * s.subH.tdiv s.binY).toNat) :
    (handleImageEvent pull s).2 =
      [HwAction.mallocTemp (s.xRes * s.yRes * 3), HwAction.pullImage,
       HwAction.freeTemp, HwAction.exposureComplete] ∧
    (handleImageEvent pull s).1.frameBuffer i = pull.bytes (3 * i) ∧
    (handleImageEvent pull s).1.frameBuffer
        ((s.subW.tdiv s.binX * s.subH.tdiv s.binY).toNat + i) =
      pull.bytes (3 * i + 1) ∧
    (handleImageEvent pull s).1.frameBuffer
        (2 * (s.subW.tdiv s.binX * s.subH.tdiv s.binY).toNat + i) =
      pull.bytes (3 * i + 2) := by
  have hps : ((s.subW.tdiv s.binX * s.bpp.tdiv 8) *
      (s.subH.tdiv s.binY * s.bpp.tdiv 8)).toNat =
      (s.subW.tdiv s.binX * s.subH.tdiv s.binY).toNat := by
    rw [hbpp]
    norm_num
  have hhandle : handleImageEvent pull s =
      ({ s with
          frameBuffer :=
            deinterleave pull.bytes
              (s.subW.tdiv s.binX * s.subH.tdiv s.binY).toNat s.frameBuffer,
          sendImage := false },
       [HwAction.mallocTemp (s.xRes * s.yRes * 3), HwAction.pullImage,
        HwAction.freeTemp, HwAction.exposureComplete]) := by
    rcases pull with ⟨ok, bytes⟩
    cases ok
    · simp at hok
    · simp [handleImageEvent, hstr, hsp, hfmt, hps]
  rw [hhandle]
  obtain ⟨e1, e2, e3⟩ :=
    deinterleave_eq pull.bytes (s.subW.tdiv s.binX * s.subH.tdiv s.binY).toNat
      s.frameBuffer i hi
  exact ⟨rfl, e1, e2, e3⟩

/-- C6, witness for `rgb_deinterleave_planes` at a concrete RGB state
with a 100×50 ROI and pixel index 5. -/
theorem rgb_deinterleave_planes_witness :
    (handleImageEvent ⟨true, fun k => k + 11⟩
        { baseState with currentVideoFormat := VideoFormat.rgb,
                         sendImage := true, subW := 100,
                         subH := 50 }).1.frameBuffer 5 = 3 * 5 + 11 :=
  (rgb_deinterleave_planes ⟨true, fun k => k + 11⟩
      { baseState with currentVideoFormat := VideoFormat.rgb,
                       sendImage := true, subW := 100, subH := 50 }
      5 rfl rfl rfl rfl rfl (by decide)).2.1

/- ------------------------------------------------------------------ -/
/- C7                                                                  -/
/- ------------------------------------------------------------------ -/

/-- C7: `UpdateCCDFrame(x, y, w, h)` (nonnegative arguments) clamps each
argument down to the nearest even value, fails without issuing any
hardware call when the clamped `w`/`h` exceeds the native resolution,
otherwise issues `Toupcam_put_Roi` with the clamped values first; and for
a sensor of at least 106×58, `UpdateCCDFrame(5, 7, 101, 51)` succeeds and
applies the ROI `(4, 6, 100, 50)`. -/
theorem updateCCDFrame_clamps_even_and_bounds (roiOk : Bool) (x y w h : Int)
    (s : CamState) (hx : 0 ≤ x) (hy : 0 ≤ y) (hw0 : 0 ≤ w) (hh0 : 0 ≤ h) :
    (2 ∣ (x - x.tmod 2) ∧ x - 1 ≤ x - x.tmod 2 ∧ x - x.tmod 2 ≤ x) ∧
    (2 ∣ (y - y.tmod 2) ∧ y - 1 ≤ y - y.tmod 2 ∧ y - y.tmod 2 ≤ y) ∧
    (2 ∣ (w - w.tmod 2) ∧ w - 1 ≤ w - w.tmod 2 ∧ w - w.tmod 2 ≤ w) ∧
    (2 ∣ (h - h.tmod 2) ∧ h - 1 ≤ h - h.tmod 2 ∧ h - h.tmod 2 ≤ h) ∧
    ((w - w.tmod 2 > s.xRes ∨ h - h.tmod 2 > s.yRes) →
       UpdateCCDFrame roiOk x y w h s = (false, s, [])) ∧
    (w - w.tmod 2 ≤ s.xRes → h - h.tmod 2 ≤ s.yRes →
       (UpdateCCDFrame roiOk x y w h s).2.2.head? =
         some (HwAction.putRoi (x - x.tmod 2) (y - y.tmod 2)
                 (w - w.tmod 2) (h - h.tmod 2))) ∧
    (106 ≤ s.xRes → 58 ≤ s.yRes →
       (UpdateCCDFrame true 5 7 101 51 s).1 = true ∧
       (UpdateCCDFrame true 5 7 101 51 s).2.2.head? =
         some (HwAction.putRoi 4 6 100 50)) := by
  have e2 : (0 : Int) ≤ 2 := by norm_num
  refine ⟨?_, ?_, ?_, ?_, ?_, ?_, ?_⟩
  · rw [Int.tmod_eq_emod hx e2]; omega
  · rw [Int.tmod_eq_emod hy e2]; omega
  · rw [Int.tmod_eq_emod hw0 e2]; omega
  · rw [Int.tmod_eq_emod hh0 e2]; omega
  · intro hor
    simp only [UpdateCCDFrame]
    split_ifs <;> first | rfl | omega
  · intro hwle hhle
    simp only [UpdateCCDFrame]
    split_ifs <;> first | rfl | omega
  · intro hxr hyr
    have t5 : (5 : Int) - (5 : Int).tmod 2 = 4 := by decide
    have t7 : (7 : Int) - (7 : Int).tmod 2 = 6 := by decide
    have t101 : (101 : Int) - (101 : Int).tmod 2 = 100 := by decide
    have t51 : (51 : Int) - (51 : Int).tmod 2 = 50 := by decide
    simp only [UpdateCCDFrame, t5, t7, t101, t51]
    rw [if_neg (by omega), if_neg (by omega)]
    exact ⟨rfl, rfl⟩

/-- C7, witness for `updateCCDFrame_clamps_even_and_bounds` at the
concrete request `(5, 7, 101, 51)` on the 106×58 reference sensor. -/
theorem updateCCDFrame_clamps_even_and_bounds_witness :
    (UpdateCCDFrame true 5 7 101 51 baseState).1 = true ∧
    (UpdateCCDFrame true 5 7 101 51 baseState).2.2.head? =
      some (HwAction.putRoi 4 6 100 50) :=
  (updateCCDFrame_clamps_even_and_bounds true 5 7 101 51 baseState
      (by norm_num) (by norm_num) (by norm_num) (by norm_num)).2.2.2.2.2.2
    (by norm_num [baseState]) (by norm_num [baseState])

/- ------------------------------------------------------------------ -/
/- C9                                                                  -/
/- ------------------------------------------------------------------ -/

/-- C9: `UpdateCCDBin(binx, biny)` never uses `biny`: its result is the
same for every vertical factor, the hardware binning option is written
from `binx` alone, and on acceptance the recorded binning becomes
`binx × binx`. -/
theorem updateCCDBin_ignores_biny (binOk roiOk : Bool) (binx biny biny' : Int)
    (s : CamState) :
    UpdateCCDBin binOk roiOk binx biny s = UpdateCCDBin binOk roiOk binx biny' s ∧
    (UpdateCCDBin binOk roiOk binx biny s).2.2.head? =
      some (HwAction.putOption TOption.optBinning binx) ∧
    (binOk = true →
      (UpdateCCDBin binOk roiOk binx biny s).2.1.binX = binx ∧
      (UpdateCCDBin binOk roiOk binx biny s).2.1.binY = binx) := by
  refine ⟨rfl, ?_, ?_⟩
  · cases binOk <;> simp [UpdateCCDBin]
  · intro hb
    subst hb
    simp only [UpdateCCDBin, UpdateCCDFrame, Bool.not_true, Bool.false_eq_true,
      if_false]
    split_ifs <;> exact ⟨rfl, rfl⟩

/-- C9, witness for `updateCCDBin_ignores_biny` with `binx = 2`,
`biny = 3`. -/
theorem updateCCDBin_ignores_biny_witness :
    (UpdateCCDBin true true 2 3 baseState).2.1.binX = 2 ∧
    (UpdateCCDBin true true 2 3 baseState).2.1.binY = 2 :=
  (updateCCDBin_ignores_biny true true 2 3 5 baseState).2.2 rfl

/- ------------------------------------------------------------------ -/
/- C8                                                                  -/
/- ------------------------------------------------------------------ -/

/-- C8: for a guide pulse whose `Toupcam_ST4PlusGuide` command is
accepted, on either axis: below 50 ms the call sleeps for the pulse
duration and returns `IPS_OK` synchronously with no deadline timer armed;
at 50 ms or more it arms a one-shot `IEAddTimer(ms)` deadline, records
`deadline = now + ms`, returns `IPS_BUSY`, and the timer callback signals
`GuideComplete` for that axis. -/
theorem guidePulse_sync_or_timer (newTimerID : Nat) (now : Int) (ms : Nat)
    (dir : Int) (s : GuideState) :
    (ms < 50 →
      (guidePulseNS true newTimerID now ms dir s).1 = IPState.ok ∧
      HwAction.usleepUs ((ms : Int) * 1000) ∈
        (guidePulseNS true newTimerID now ms dir s).2.2 ∧
      (∀ m, HwAction.addTimer m ∉ (guidePulseNS true newTimerID now ms dir s).2.2) ∧
      (guidePulseNS true newTimerID now ms dir s).2.1.nsTimerID = none) ∧
    (50 ≤ ms →
      (guidePulseNS true newTimerID now ms dir s).1 = IPState.busy ∧
      HwAction.addTimer (ms : Int) ∈ (guidePulseNS true newTimerID now ms dir s).2.2 ∧
      (guidePulseNS true newTimerID now ms dir s).2.1.nsTimerID = some newTimerID ∧
      (guidePulseNS true newTimerID now ms dir s).2.1.nsPulseEnd =
        now + (ms : Int) * 1000 ∧
      (TimerNS (guidePulseNS true newTimerID now ms dir s).2.1).2 =
        [HwAction.guideComplete AXIS_DE]) ∧
    (ms < 50 →
      (guidePulseWE true newTimerID now ms dir s).1 = IPState.ok ∧
      HwAction.usleepUs ((ms : Int) * 1000) ∈
        (guidePulseWE true newTimerID now ms dir s).2.2 ∧
      (∀ m, HwAction.addTimer m ∉ (guidePulseWE true newTimerID now ms dir s).2.2) ∧
      (guidePulseWE true newTimerID now ms dir s).2.1.weTimerID = none) ∧
    (50 ≤ ms →
      (guidePulseWE true newTimerID now ms dir s).1 = IPState.busy ∧
      HwAction.addTimer (ms : Int) ∈ (guidePulseWE true newTimerID now ms dir s).2.2 ∧
      (guidePulseWE true newTimerID now ms dir s).2.1.weTimerID = some newTimerID ∧
      (guidePulseWE true newTimerID now ms dir s).2.1.wePulseEnd =
        now + (ms : Int) * 1000 ∧
      (TimerWE (guidePulseWE true newTimerID now ms dir s).2.1).2 =
        [HwAction.guideComplete AXIS_RA]) := by
  refine ⟨fun hlt => ?_, fun hge => ?_, fun hlt => ?_, fun hge => ?_⟩
  · rcases s with ⟨nsT, _, _, _, _, _⟩
    cases nsT <;>
      simp [guidePulseNS, stopTimerNS, hlt]
  · rcases s with ⟨nsT, _, _, _, _, _⟩
    have : ¬ ms < 50 := by omega
    cases nsT <;>
      simp [guidePulseNS, stopTimerNS, TimerNS, this]
  · rcases s with ⟨_, _, _, weT, _, _⟩
    cases weT <;>
      simp [guidePulseWE, stopTimerWE, hlt]
  · rcases s with ⟨_, _, _, weT, _, _⟩
    have : ¬ ms < 50 := by omega
    cases weT <;>
      simp [guidePulseWE, stopTimerWE, TimerWE, this]

/-- C8, witness for `guidePulse_sync_or_timer`: a 40 ms pulse returns
`IPS_OK`, a 200 ms pulse returns `IPS_BUSY` with its deadline timer
armed. -/
theorem guidePulse_sync_or_timer_witness :
    (guidePulseNS true 3 0 40 0 baseGuide).1 = IPState.ok ∧
    (guidePulseNS true 3 0 200 0 baseGuide).1 = IPState.busy ∧
    (guidePulseNS true 3 0 200 0 baseGuide).2.1.nsTimerID = some 3 :=
  ⟨((guidePulse_sync_or_timer 3 0 40 0 baseGuide).1 (by norm_num)).1,
   ((guidePulse_sync_or_timer 3 0 200 0 baseGuide).2.1 (by norm_num)).1,
   ((guidePulse_sync_or_timer 3 0 200 0 baseGuide).2.1 (by norm_num)).2.2.1⟩

/- ------------------------------------------------------------------ -/
/- C10                                                                 -/
/- ------------------------------------------------------------------ -/

/-- C10: every accepted video-format change request, whatever its target
format, begins by writing the same three fixed hardware option values —
`TOUPCAM_OPTION_RAW := 1`, `TOUPCAM_OPTION_BITDEPTH := 1`,
`TOUPCAM_OPTION_PIXEL_FORMAT := TOUPCAM_PIXELFORMAT_RAW12` — none of
which depends on the requested target. -/
theorem videoFormatSwitch_fixed_option_writes (g : FormatGuards) (hw : FormatHw)
    (target : VideoFormat) (s : CamState)
    (h1 : g.streamerBusy = false)
    (h2 : ¬(g.maxBitDepth8 = true ∧ target = VideoFormat.mono16))
    (h3 : ¬(target = VideoFormat.raw ∧ g.rawSupport = false))
    (h4 : ¬(target = VideoFormat.rgb ∧ g.monoSensor = true)) :
    List.IsPrefix
      ((optionWrites (videoFormatSwitch g hw target s).2.2).take 3)
      [(TOption.optRaw, 1), (TOption.optBitDepth, 1),
       (TOption.optPixelFormat, TOUPCAM_PIXELFORMAT_RAW12)] ∧
    (hw.rawOk = true → hw.bitDepthOk = true → hw.pixelFormatOk = true →
      (optionWrites (videoFormatSwitch g hw target s).2.2).take 3 =
        [(TOption.optRaw, 1), (TOption.optBitDepth, 1),
         (TOption.optPixelFormat, TOUPCAM_PIXELFORMAT_RAW12)]) := by
  rcases g with ⟨gs, gb, gr, gm⟩
  rcases hw with ⟨o1, o2, o3, o4⟩
  simp only at h1 h2 h3 h4
  subst h1
  have hg2 : (gb && decide (target = VideoFormat.mono16)) = false := by
    cases gb
    · rfl
    · simp only [Bool.true_and, decide_eq_false_iff_not]
      intro hc
      exact h2 ⟨rfl, hc⟩
  have hg3 : (decide (target = VideoFormat.raw) && !gr) = false := by
    cases gr
    · simp only [Bool.not_false, Bool.and_true, decide_eq_false_iff_not]
      intro hc
      exact h3 ⟨hc, rfl⟩
    · simp
  have hg4 : (decide (target = VideoFormat.rgb) && gm) = false := by
    cases gm
    · simp
    · simp only [Bool.and_true, decide_eq_false_iff_not]
      intro hc
      exact h4 ⟨hc, rfl⟩
  cases target <;> cases o1 <;> cases o2 <;> cases o3 <;> cases o4 <;>
    constructor <;>
    simp_all [videoFormatSwitch, optionWrites, allocateFrameBuffer]

/-- C10, witness for `videoFormatSwitch_fixed_option_writes`: switching
the reference state to Mono 8 with all hardware calls accepted writes
exactly the three fixed option values first. -/
theorem videoFormatSwitch_fixed_option_writes_witness :
    (optionWrites
        (videoFormatSwitch ⟨false, false, true, false⟩ ⟨true, true, true, true⟩
          VideoFormat.mono8 baseState).2.2).take 3 =
      [(TOption.optRaw, 1), (TOption.optBitDepth, 1),
       (TOption.optPixelFormat, TOUPCAM_PIXELFORMAT_RAW12)] :=
  (videoFormatSwitch_fixed_option_writes ⟨false, false, true, false⟩
      ⟨true, true, true, true⟩ VideoFormat.mono8 baseState rfl
      (by simp) (by simp) (by simp)).2 rfl rfl rfl
